import Mathlib

/-!
Verification of `src/lib/VerifiableCredentialStore.js` against its
natural-language specification.

The JavaScript source is shallowly embedded: JavaScript values are modelled by
the inductive `JsValue`, thrown errors by `StoreError`, and the EDV (encrypted
data vault) collaborator -- which the specification treats as external and
describes only at its interface -- by a record of abstract functions
(`EdvClient`).  Each facade method of the class `VerifiableCredentialStore`
becomes a Lean function; methods that issue queries to the collaborator also
return the list of `find` arguments they dispatched, so that fail-fast
properties ("no collaborator call is made") can be stated.  The capability
`invocationSigner` is passed through unmodified by every method and never
inspected, so it is omitted from the embedding.
-/

/-- A universe of JavaScript values, covering everything the store manipulates.
Objects are ordered association lists of fields; `NaN` and functions are not
needed by any code path modelled here. -/
inductive JsValue where
  | undefined
  | null
  | bool (b : Bool)
  | num (n : Int)
  | str (s : String)
  | obj (fields : List (String × JsValue))
  | arr (elems : List JsValue)

/-- JavaScript truthiness: `undefined`, `null`, `false`, `0` and the empty
string are falsy, every object and array is truthy. -/
def jsTruthy : JsValue → Bool
  | .undefined => false
  | .null => false
  | .bool b => b
  | .num n => n != 0
  | .str s => s != ""
  | .obj _ => true
  | .arr _ => true

/-- The JavaScript `typeof` operator (note `typeof null` and `typeof` of an
array are both the string `object`). -/
def jsTypeof : JsValue → String
  | .undefined => "undefined"
  | .null => "object"
  | .bool _ => "boolean"
  | .num _ => "number"
  | .str _ => "string"
  | .obj _ => "object"
  | .arr _ => "object"

/-- Strict equality of a JavaScript value with a string literal, as in
`type === "QueryByExample"`. -/
def strictEqStr (v : JsValue) (s : String) : Bool :=
  match v with
  | .str x => x == s
  | _ => false

/-- Field lookup in an object field list; a missing field reads as
`undefined`, as in JavaScript. -/
def lookupField (fs : List (String × JsValue)) (k : String) : JsValue :=
  match fs.find? (fun p => p.1 == k) with
  | some p => p.2
  | none => .undefined

/-- A JavaScript `Error` (or `TypeError`) object as this code creates them:
the `name` tag (the constructor name, or the value assigned to `err.name`)
plus the `message`. -/
structure JsError where
  name : String
  message : String

/-- Errors that can surface from a store operation: either an error object
constructed and thrown by the store code itself (`js`), or an uninterpreted error
propagated from the EDV collaborator (`collaborator`).  A collaborator error
optionally carries a `response` object which optionally carries a numeric
`status` (HTTP transport errors do); `tag` keeps distinct collaborator errors
distinguishable so that "re-raised unchanged" is expressible. -/
inductive StoreError where
  | js (e : JsError)
  | collaborator (tag : Nat) (response : Option (Option Int))

/-- Property access `v[k]`: throws a `TypeError` when `v` is `undefined` or
`null`, reads the field of an object, and yields `undefined` on other
primitives (none of the properties this code reads exist on primitives). -/
def jsMember (v : JsValue) (k : String) : Except StoreError JsValue :=
  match v with
  | .undefined =>
    .error (.js ⟨"TypeError", "Cannot read properties of undefined (reading " ++ k ++ ")"⟩)
  | .null =>
    .error (.js ⟨"TypeError", "Cannot read properties of null (reading " ++ k ++ ")"⟩)
  | .obj fs => .ok (lookupField fs k)
  | _ => .ok .undefined

/-- The `Array.isArray(x) ? x : [x]` normalization used throughout the
source. -/
def toArray : JsValue → List JsValue
  | .arr xs => xs
  | v => [v]

/-- Replace the first binding of `k` (JavaScript objects have unique keys, so
an existing property keeps its position) or append a new one, as property
assignment does. -/
def setAssoc : List (String × JsValue) → String → JsValue → List (String × JsValue)
  | [], k, v => [(k, v)]
  | (k', v') :: rest, k, v =>
    if k' == k then (k, v) :: rest else (k', v') :: setAssoc rest k v

/-- Property assignment `o[k] = v` in strict mode (ES modules): throws a
`TypeError` on `undefined`, `null` and other primitives, updates an object.
Arrays, which this model gives no assignable extra fields, are collapsed into
the primitive error arm; the source only ever assigns to `meta`, which every
theorem here takes to be an object. -/
def jsSetProp (o : JsValue) (k : String) (v : JsValue) : Except StoreError JsValue :=
  match o with
  | .obj fs => .ok (.obj (setAssoc fs k v))
  | .undefined =>
    .error (.js ⟨"TypeError", "Cannot set properties of undefined (setting " ++ k ++ ")"⟩)
  | .null =>
    .error (.js ⟨"TypeError", "Cannot set properties of null (setting " ++ k ++ ")"⟩)
  | _ =>
    .error (.js ⟨"TypeError", "Cannot create property " ++ k ++ " on a primitive value"⟩)

mutual

/-- Conversion of a JavaScript value to a string as a template literal
performs it (used by the interpolation in the unsupported-query-type
message). -/
def jsTemplate : JsValue → String
  | .undefined => "undefined"
  | .null => "null"
  | .bool b => if b then "true" else "false"
  | .num n => toString n
  | .str s => s
  | .obj _ => "[object Object]"
  | .arr xs => String.intercalate "," (jsTemplateList xs)

/-- Stringification of the elements of an array as `Array#join` performs it:
`null` and `undefined` elements yield the empty string there, unlike at top
level. -/
def jsTemplateList : List JsValue → List String
  | [] => []
  | .undefined :: xs => "" :: jsTemplateList xs
  | .null :: xs => "" :: jsTemplateList xs
  | x :: xs => jsTemplate x :: jsTemplateList xs

end

/-- A document as stored in the EDV: the vault document identifier `id`
plus the `meta` and `content` objects. -/
structure EdvDoc where
  id : JsValue
  meta : JsValue
  content : JsValue

/-- The record shape `{content, meta, documentId}` returned by the read
operations of the store. -/
structure CredentialRecord where
  content : JsValue
  meta : JsValue
  documentId : JsValue

/-- The value returned by `insert`: the stored content and the vault document
identifier.  Deliberately no `meta` field -- the source returns only
`{content: doc.content, documentId: doc.id}`. -/
structure InsertResult where
  content : JsValue
  documentId : JsValue

/-- The EDV collaborator at its interface (spec section 6).  `find` receives
the `equals` value exactly as the store passes it (an array of equality-clause
objects from `find`, a bare object from `get` and `delete`); each function may
fail with an uninterpreted collaborator error.  Encryption, transport and the
`invocationSigner` pass-through live behind this interface and are not
modelled. -/
structure EdvClient where
  find : JsValue → Except StoreError (List EdvDoc)
  insert : EdvDoc → Except StoreError EdvDoc
  delete : EdvDoc → Except StoreError Bool

/-- Mapping of a vault document to the returned record shape,
`({content, meta, id}) => ({content, meta, documentId: id})`. -/
def toRecord (d : EdvDoc) : CredentialRecord :=
  ⟨d.content, d.meta, d.id⟩

namespace VerifiableCredentialStore

/-- The `equals` object with the single key `content.id` that `get` and `delete` pass. -/
def idQuery (id : JsValue) : JsValue := .obj [("content.id", id)]

/-- The method `get({id})` of the source, lines 33-50.  NOTE: as written the
source body contains `const {content, meta, id} = doc;` which redeclares the
parameter `id` -- a JavaScript `SyntaxError`, so the file does not parse.
This definition models the evident intent (the destructured document
identifier bound to a fresh name), which is the only reading that runs. -/
def get (c : EdvClient) (id : JsValue) : Except StoreError CredentialRecord :=
  match c.find (idQuery id) with
  | .error e => .error e
  | .ok [] => .error (.js ⟨"NotFoundError", "Verifiable Credential not found."⟩)
  | .ok (doc :: _) => .ok ⟨doc.content, doc.meta, doc.id⟩

/-- One iteration of the loop in `find` (lines 65-77): the equality clause
built from one filter spec.  Only truthy `type` / `issuer` / `displayable`
fields contribute, mapped to the dotted attribute paths, in source order. -/
def findEntry (spec : JsValue) : Except StoreError JsValue := do
  let type ← jsMember spec "type"
  let issuer ← jsMember spec "issuer"
  let displayable ← jsMember spec "displayable"
  pure (.obj
    ((if jsTruthy type then [("content.type", type)] else [])
      ++ (if jsTruthy issuer then [("meta.issuer", issuer)] else [])
      ++ (if jsTruthy displayable then [("meta.displayable", displayable)] else [])))

/-- The whole loop of `find`: one equality clause per filter spec, in
order. -/
def findEntries : List JsValue → Except StoreError (List JsValue)
  | [] => .ok []
  | s :: rest => do
    let e ← findEntry s
    let es ← findEntries rest
    pure (e :: es)

/-- The method `find({query})`, lines 59-88.  The first component of the
result is the list of `equals` arguments passed to `edvClient.find` (exactly
one combined request when the query is well-formed), the second the returned
records.  A falsy `query` (in particular an absent one) raises
`TypeError: "query" is a required parameter.` before any collaborator
call. -/
def find (c : EdvClient) (query : JsValue) :
    List JsValue × Except StoreError (List CredentialRecord) :=
  if jsTruthy query = false then
    ([], .error (.js ⟨"TypeError", "\"query\" is a required parameter."⟩))
  else
    match findEntries (toArray query) with
    | .error e => ([], .error e)
    | .ok equals =>
      match c.find (.arr equals) with
      | .error e => ([.arr equals], .error e)
      | .ok docs => ([.arr equals], .ok (docs.map toRecord))

/-- The `trustedIssuers.map(({id}) => ...)` step of `_queryByExample`
(lines 191-199): destructure `id` from each trusted-issuer entry, throw
`NotSupportedError` at the first falsy `id`, collect the ids. -/
def mapIssuers : List JsValue → Except StoreError (List JsValue)
  | [] => .ok []
  | e :: rest =>
    match jsMember e "id" with
    | .error err => .error err
    | .ok idv =>
      if jsTruthy idv = false then
        .error (.js ⟨"NotSupportedError", "trustedIssuer without an \"id\" is unsupported."⟩)
      else
        match mapIssuers rest with
        | .error err => .error err
        | .ok ids => .ok (idv :: ids)

/-- The criteria-building loop of `_queryByExample` (lines 202-210): for each
type, a single `{type}` criterion when there are no issuers, otherwise one
`{type, issuer}` criterion per issuer. -/
def queryCriteria (types issuers : List JsValue) : List JsValue :=
  (types.map (fun t =>
    if issuers.isEmpty then [JsValue.obj [("type", t)]]
    else issuers.map (fun i => JsValue.obj [("type", t), ("issuer", i)]))).flatten

/-- The part of the inner function `_query` (lines 179-210) before
`this.find({query})`: destructure `example` and `trustedIssuer` (defaulting
the latter to `[]` when `undefined`), read `example.type`, normalize both to
arrays, validate the trusted issuers and build the criteria list. -/
def _queryCriteria (clause : JsValue) : Except StoreError (List JsValue) := do
  let «example» ← jsMember clause "example"
  let tiRaw ← jsMember clause "trustedIssuer"
  let trustedIssuer := match tiRaw with | .undefined => JsValue.arr [] | v => v
  let type ← jsMember «example» "type"
  let issuers ← mapIssuers (toArray trustedIssuer)
  let types := toArray type
  pure (queryCriteria types issuers)

/-- The inner function `_query` of `_queryByExample`: build the criteria for
one clause and run them through `this.find` (a clause that throws during
criteria building dispatches no collaborator call). -/
def _query (c : EdvClient) (clause : JsValue) :
    List JsValue × Except StoreError (List CredentialRecord) :=
  match _queryCriteria clause with
  | .error e => ([], .error e)
  | .ok criteria => find c (.arr criteria)

/-- The `await Promise.all` / flatten step (lines 217-221): the combined
promise rejects with the first clause error (all clause bodies having already
run), otherwise the per-clause result lists are concatenated in clause
order. -/
def allResults : List (Except StoreError (List CredentialRecord)) →
    Except StoreError (List CredentialRecord)
  | [] => .ok []
  | .error e :: _ => .error e
  | .ok rs :: rest =>
    match allResults rest with
    | .error e => .error e
    | .ok more => .ok (rs ++ more)

/-- The method `_queryByExample({credentialQuery})`, lines 163-222.  Because
`query.map(_query)` invokes every clause body before `Promise.all` is
awaited, the dispatched collaborator requests (first component) are those of
every clause whose validation succeeded, even when some clause fails. -/
def _queryByExample (c : EdvClient) (credentialQuery : JsValue) :
    List JsValue × Except StoreError (List CredentialRecord) :=
  if jsTruthy credentialQuery = false then
    ([], .error (.js ⟨"Error", "\"credentialQuery\" is needed to execute a QueryByExample."⟩))
  else if jsTypeof credentialQuery != "object" then
    ([], .error (.js ⟨"Error", "\"credentialQuery\" must be an object or an array."⟩))
  else
    let runs := (toArray credentialQuery).map (_query c)
    ((runs.map Prod.fst).flatten, allResults (runs.map Prod.snd))

/-- The method `match({query, engine})`, lines 99-110: dispatch on
`query.type`; only the string `QueryByExample` is supported, anything else
throws `Unsupported query type: "<type>"` without touching the
collaborator; results are mapped through `engine` (identity by default). -/
def «match» (c : EdvClient) (query : JsValue)
    (engine : CredentialRecord → CredentialRecord) :
    List JsValue × Except StoreError (List CredentialRecord) :=
  match jsMember query "type" with
  | .error e => ([], .error e)
  | .ok t =>
    if strictEqStr t "QueryByExample" then
      match jsMember query "credentialQuery" with
      | .error e => ([], .error e)
      | .ok cq =>
        let (reqs, res) := _queryByExample c cq
        (reqs, res.map (List.map engine))
    else
      ([], .error (.js ⟨"Error", "Unsupported query type: \"" ++ jsTemplate t ++ "\""⟩))

/-- The method `_getIssuer({credential})`, lines 224-234.  The truthiness
check `if(!issuer)` also rejects present-but-falsy issuers such as the empty
string.  Evaluating `issuer.id` is safe here because `issuer` is truthy, so
the JavaScript short-circuit of `typeof issuer === "string" ||
typeof issuer.id === "string"` needs no separate modelling. -/
def _getIssuer (credential : JsValue) : Except StoreError JsValue :=
  match jsMember credential "issuer" with
  | .error e => .error e
  | .ok issuer =>
    if jsTruthy issuer = false then
      .error (.js ⟨"Error", "A verifiable credential MUST have an issuer property"⟩)
    else
      match jsMember issuer "id" with
      | .error e => .error e
      | .ok idv =>
        if jsTypeof issuer == "string" || jsTypeof idv == "string" then
          .ok (if jsTypeof issuer == "string" then issuer else idv)
        else
          .error (.js ⟨"Error",
            "The value of the issuer property MUST be either a URI or an object containing an id property."⟩)

/-- The document `{id: docId, meta, content: credential}` submitted to the
collaborator by `insert` once `meta.issuer` has been overwritten with the
derived issuer id (stated for an object `meta` with fields `ms`). -/
def submittedDoc (credential : JsValue) (ms : List (String × JsValue))
    (iss docId : JsValue) : EdvDoc :=
  { id := docId, meta := .obj (setAssoc ms "issuer" iss), content := credential }

/-- The method `insert({credential, meta, docId})`, lines 121-136: derive the
issuer (failing before any collaborator call when the credential is invalid),
overwrite `meta.issuer`, submit the document, and return only
`{content: doc.content, documentId: doc.id}` -- `meta` is not echoed back. -/
def insert (c : EdvClient) (credential meta docId : JsValue) :
    Except StoreError InsertResult :=
  match _getIssuer credential with
  | .error e => .error e
  | .ok iss =>
    match jsSetProp meta "issuer" iss with
    | .error e => .error e
    | .ok meta' =>
      match c.insert { id := docId, meta := meta', content := credential } with
      | .error e => .error e
      | .ok doc => .ok { content := doc.content, documentId := doc.id }

/-- The `response` property of a caught error as the `catch` handler of
`delete` sees it: error objects thrown by this code carry none; a
collaborator error carries whatever the transport attached. -/
def errResponse : StoreError → Option (Option Int)
  | .js _ => none
  | .collaborator _ r => r

/-- The `TypeError` produced by evaluating `e.response.status` when
`e.response` is `undefined`. -/
def statusReadTypeError : StoreError :=
  .js ⟨"TypeError", "Cannot read properties of undefined (reading status)"⟩

/-- The `catch` handler of `delete` (lines 155-160), applied to the reason of
a rejection that occurs while control is still inside the `try` block: it
reads `e.response.status` unconditionally (a `TypeError` when there is no
`response` object), translates a 404 status to `false` and re-raises
anything else. -/
def deleteCatch (e : StoreError) : Except StoreError Bool :=
  match errResponse e with
  | none => .error statusReadTypeError
  | some status => if status == some 404 then .ok false else .error e

/-- The method `delete({id})`, lines 144-161.  The lookup on line 147 is
`await`ed, so a lookup rejection is caught by the handler.  But line 154 is
`return this.edvClient.delete(...)` WITHOUT `await`: returning the promise
exits the `try` block immediately, so when that promise later rejects the
lexical `catch` never runs and the rejection propagates unchanged (the
`return` versus `return await` distinction; the collaborator interface is
asynchronous, spec sections 5 and 6). -/
def delete (c : EdvClient) (id : JsValue) : Except StoreError Bool :=
  match c.find (idQuery id) with
  | .error e => deleteCatch e
  | .ok [] => .ok false
  | .ok (doc :: _) => c.delete doc

end VerifiableCredentialStore

/-- The error kind `ConfigurationError` of the specification taxonomy
(section 7): caller-supplied malformed or missing query input.  The source
tags no error object with this name; the spec (sections 4.3, 7 and 9)
assigns the kind to the `TypeError` thrown by `find` for a missing query and
to the generic errors thrown by `match` and `_queryByExample` for a missing
or non-object `credentialQuery` and for an unsupported outer query type. -/
def IsConfigurationError (err : StoreError) : Prop :=
  ∃ je, err = .js je ∧
    ((je.name = "TypeError" ∧ je.message = "\"query\" is a required parameter.")
      ∨ (je.name = "Error"
        ∧ (je.message = "\"credentialQuery\" is needed to execute a QueryByExample."
          ∨ je.message = "\"credentialQuery\" must be an object or an array."
          ∨ ∃ t, je.message = "Unsupported query type: \"" ++ t ++ "\"")))

/-- The error kind `ValidationError` of the specification taxonomy
(section 7): credential content violating the issuer-shape invariant, i.e.
the two generic errors thrown by `_getIssuer`. -/
def IsValidationError (err : StoreError) : Prop :=
  ∃ je, err = .js je ∧ je.name = "Error"
    ∧ (je.message = "A verifiable credential MUST have an issuer property"
      ∨ je.message = "The value of the issuer property MUST be either a URI or an object containing an id property.")

/-- The error kind `NotSupportedError` of the specification taxonomy: the
source tags these errors explicitly via `error.name`. -/
def IsNotSupportedError (err : StoreError) : Prop :=
  ∃ je, err = .js je ∧ je.name = "NotSupportedError"

/-- The error kind `NotFoundError` of the specification taxonomy: the source
tags these errors explicitly via `err.name`. -/
def IsNotFoundError (err : StoreError) : Prop :=
  ∃ je, err = .js je ∧ je.name = "NotFoundError"

/-- A collaborator that finds nothing, echoes inserted documents and reports
successful deletion; used to state closed counterexamples and witnesses. -/
def edvEmpty : EdvClient :=
  { find := fun _ => .ok []
    insert := fun d => .ok d
    delete := fun _ => .ok true }

namespace VerifiableCredentialStore

/-- Looking up the key just assigned by `setAssoc` yields the assigned
value. -/
theorem lookupField_setAssoc (ms : List (String × JsValue)) (k : String) (v : JsValue) :
    lookupField (setAssoc ms k v) k = v := by
  induction ms with
  | nil => simp [setAssoc, lookupField]
  | cons p rest ih =>
    obtain ⟨k', v'⟩ := p
    by_cases h : k' = k
    · simp [setAssoc, h, lookupField]
    · have hb : (k' == k) = false := beq_eq_false_iff_ne.mpr h
      simp only [setAssoc, hb, Bool.false_eq_true, if_false]
      simpa [lookupField, List.find?, hb] using ih

/-- Flattening a list of singletons is a plain map. -/
theorem flatten_map_singleton {α β : Type} (l : List α) (f : α → β) :
    (l.map (fun a => [f a])).flatten = l.map f := by
  induction l with
  | nil => rfl
  | cons a rest ih => simp [ih]

/-- `findEntries` builds exactly one equality clause per filter spec. -/
theorem findEntries_length : ∀ (specs es : List JsValue),
    findEntries specs = .ok es → es.length = specs.length := by
  intro specs
  induction specs with
  | nil =>
    intro es h
    simp only [findEntries] at h
    cases h
    rfl
  | cons s rest ih =>
    intro es h
    cases hfe : findEntry s with
    | error e => simp [findEntries, hfe, bind, Except.bind] at h
    | ok e =>
      cases hfr : findEntries rest with
      | error e2 =>
        simp [findEntries, hfe, hfr, bind, Except.bind, Functor.map, Except.map] at h
      | ok es2 =>
        simp only [findEntries, hfe, hfr, bind, Except.bind, Functor.map, Except.map] at h
        cases h
        simp [ih es2 hfr]

/-- Mapping well-formed `{id: <nonempty string>}` trusted-issuer entries
through the validation step succeeds with the ids. -/
theorem mapIssuers_map_id : ∀ (is : List String), (∀ s ∈ is, s ≠ "") →
    mapIssuers (is.map (fun i => JsValue.obj [("id", JsValue.str i)]))
      = .ok (is.map JsValue.str) := by
  intro is h
  induction is with
  | nil => rfl
  | cons i rest ih =>
    have hi : (i != "") = true := by
      simpa using h i (by simp)
    have hrest := ih (fun s hs => h s (by simp [hs]))
    simp [mapIssuers, jsMember, lookupField, jsTruthy, hi, hrest]

/-- The trusted-issuer validation throws `NotSupportedError` at the first
entry whose `id` is falsy, whatever follows it. -/
theorem mapIssuers_falsy : ∀ (pre : List JsValue) (o : JsValue) (rest : List JsValue),
    (∀ p ∈ pre, ∃ w, jsMember p "id" = .ok w ∧ jsTruthy w = true) →
    (∃ w, jsMember o "id" = .ok w ∧ jsTruthy w = false) →
    mapIssuers (pre ++ o :: rest)
      = .error (.js ⟨"NotSupportedError", "trustedIssuer without an \"id\" is unsupported."⟩) := by
  intro pre o rest hpre ho
  induction pre with
  | nil =>
    obtain ⟨w, hw1, hw2⟩ := ho
    simp [mapIssuers, hw1, hw2]
  | cons p ps ih =>
    obtain ⟨w, hw1, hw2⟩ := hpre p (by simp)
    have hrec := ih (fun q hq => hpre q (by simp [hq]))
    simp [mapIssuers, hw1, hw2, hrec]

end VerifiableCredentialStore

namespace VerifiableCredentialStore

/-- C3 counterexample: the claim says a string issuer is returned directly,
but for the present-but-empty-string issuer the truthiness check `if(!issuer)`
fires and `_getIssuer` throws the missing-issuer `ValidationError` instead of
returning the string. -/
theorem C3_issuer_empty_string_cex :
    _getIssuer (.obj [("issuer", .str "")])
      = .error (.js ⟨"Error", "A verifiable credential MUST have an issuer property"⟩)
    ∧ _getIssuer (.obj [("issuer", .str "")]) ≠ .ok (.str "") :=
  ⟨rfl, fun h => nomatch h⟩

/-- C3 (amended): deriving the issuer fails with a `ValidationError` when
`credential.issuer` is absent or otherwise falsy (in particular the empty
string); fails with a `ValidationError` when the (truthy) issuer is neither a
string nor a value with a string `id`; otherwise returns the issuer string
directly when it is a nonempty string, or `issuer.id` when the issuer is an
object with a string `id`. -/
theorem C3_getIssuer (fs : List (String × JsValue)) :
    (jsTruthy (lookupField fs "issuer") = false →
      _getIssuer (.obj fs)
        = .error (.js ⟨"Error", "A verifiable credential MUST have an issuer property"⟩)
      ∧ IsValidationError
          (.js ⟨"Error", "A verifiable credential MUST have an issuer property"⟩))
    ∧ (∀ s : String, lookupField fs "issuer" = .str s → s ≠ "" →
        _getIssuer (.obj fs) = .ok (.str s))
    ∧ (∀ gs : List (String × JsValue), lookupField fs "issuer" = .obj gs →
        ∀ t : String, lookupField gs "id" = .str t →
        _getIssuer (.obj fs) = .ok (.str t))
    ∧ (∀ v : JsValue, lookupField fs "issuer" = v → jsTruthy v = true →
        jsTypeof v ≠ "string" →
        (∀ w, jsMember v "id" = .ok w → jsTypeof w ≠ "string") →
        _getIssuer (.obj fs)
          = .error (.js ⟨"Error",
              "The value of the issuer property MUST be either a URI or an object containing an id property."⟩)
        ∧ IsValidationError (.js ⟨"Error",
            "The value of the issuer property MUST be either a URI or an object containing an id property."⟩)) := by
  refine ⟨?_, ?_, ?_, ?_⟩
  · intro h
    refine ⟨?_, ⟨_, rfl, rfl, Or.inl rfl⟩⟩
    simp [_getIssuer, jsMember, h]
  · intro s hs hne
    have hb : (s != "") = true := by simpa using hne
    simp [_getIssuer, jsMember, hs, jsTruthy, jsTypeof, hb]
  · intro gs hgs t ht
    simp [_getIssuer, jsMember, hgs, jsTruthy, jsTypeof, ht]
  · intro v hv htr hts hid
    refine ?_
    cases v with
    | undefined => simp [jsTruthy] at htr
    | null => simp [jsTruthy] at htr
    | str s => simp [jsTypeof] at hts
    | bool b =>
      have hb : b = true := by simpa [jsTruthy] using htr
      subst hb
      exact ⟨by simp [_getIssuer, jsMember, hv, jsTruthy, jsTypeof],
        ⟨_, rfl, rfl, Or.inr rfl⟩⟩
    | num n =>
      have hn : (n != 0) = true := by simpa [jsTruthy] using htr
      exact ⟨by simp [_getIssuer, jsMember, hv, jsTruthy, jsTypeof, hn],
        ⟨_, rfl, rfl, Or.inr rfl⟩⟩
    | arr xs =>
      exact ⟨by simp [_getIssuer, jsMember, hv, jsTruthy, jsTypeof],
        ⟨_, rfl, rfl, Or.inr rfl⟩⟩
    | obj gs =>
      have hw : jsTypeof (lookupField gs "id") ≠ "string" :=
        hid (lookupField gs "id") (by simp [jsMember])
      have hb : (jsTypeof (lookupField gs "id") == "string") = false :=
        beq_eq_false_iff_ne.mpr hw
      refine ⟨?_, ⟨_, rfl, rfl, Or.inr rfl⟩⟩
      simp [_getIssuer, jsMember, hv, jsTruthy, jsTypeof, hb]
      exact hw

/-- C3 witness: the amended theorem applied to concrete credentials -- an
absent issuer, a nonempty string issuer, an object issuer with a string id,
and a number issuer. -/
theorem C3_getIssuer_witness :
    (_getIssuer (.obj [("name", .str "n")])
        = .error (.js ⟨"Error", "A verifiable credential MUST have an issuer property"⟩))
    ∧ _getIssuer (.obj [("issuer", .str "did:ex:1")]) = .ok (.str "did:ex:1")
    ∧ _getIssuer (.obj [("issuer", .obj [("id", .str "did:ex:2")])]) = .ok (.str "did:ex:2")
    ∧ _getIssuer (.obj [("issuer", .num 5)])
        = .error (.js ⟨"Error",
            "The value of the issuer property MUST be either a URI or an object containing an id property."⟩) := by
  refine ⟨((C3_getIssuer [("name", .str "n")]).1 rfl).1,
    (C3_getIssuer [("issuer", .str "did:ex:1")]).2.1 "did:ex:1" rfl (by decide),
    (C3_getIssuer [("issuer", .obj [("id", .str "did:ex:2")])]).2.2.1
      [("id", .str "did:ex:2")] rfl "did:ex:2" rfl,
    ((C3_getIssuer [("issuer", .num 5)]).2.2.2 (.num 5) rfl rfl (by decide)
      (fun w hw => by cases hw; decide)).1⟩

/-- C5: for every query whose outer `type` is anything other than the string
`QueryByExample`, `match` throws the unsupported-query-type error -- a
`ConfigurationError` in the spec taxonomy whose message names the type
(interpolating it into the template) -- and no collaborator call is made
(the dispatched-request log is empty). -/
theorem C5_match_unsupported_type (c : EdvClient)
    (engine : CredentialRecord → CredentialRecord) (fs : List (String × JsValue))
    (h : strictEqStr (lookupField fs "type") "QueryByExample" = false) :
    «match» c (.obj fs) engine
      = ([], .error (.js ⟨"Error",
          "Unsupported query type: \"" ++ jsTemplate (lookupField fs "type") ++ "\""⟩))
    ∧ IsConfigurationError (.js ⟨"Error",
        "Unsupported query type: \"" ++ jsTemplate (lookupField fs "type") ++ "\""⟩)
    ∧ (∀ s, lookupField fs "type" = .str s →
        "Unsupported query type: \"" ++ jsTemplate (lookupField fs "type") ++ "\""
          = "Unsupported query type: \"" ++ s ++ "\"") := by
  refine ⟨?_, ?_, ?_⟩
  · simp [«match», jsMember, h]
  · exact ⟨_, rfl, Or.inr ⟨rfl, Or.inr (Or.inr ⟨_, rfl⟩)⟩⟩
  · intro s hs
    rw [hs]
    simp [jsTemplate]

/-- C5 witness: the `PresentationExchange` instance of the claim. -/
theorem C5_match_unsupported_type_witness :
    strictEqStr (lookupField [("type", JsValue.str "PresentationExchange")] "type")
        "QueryByExample" = false
    ∧ «match» edvEmpty (.obj [("type", .str "PresentationExchange")]) (fun r => r)
        = ([], .error (.js ⟨"Error", "Unsupported query type: \"PresentationExchange\""⟩)) := by
  have h : strictEqStr (lookupField [("type", JsValue.str "PresentationExchange")] "type")
      "QueryByExample" = false := rfl
  exact ⟨h, (C5_match_unsupported_type edvEmpty (fun r => r)
    [("type", JsValue.str "PresentationExchange")] h).1⟩

/-- C10 counterexample: a response-less rejection of the un-awaited
collaborator deletion call is re-raised unchanged -- the catch never runs,
so no `TypeError` replaces it -- refuting the original claim for the
deletion step it explicitly covers. -/
theorem C10_deletion_step_cex :
    delete ⟨fun _ => .ok [⟨.str "d0", .obj [], .obj []⟩], fun dd => .ok dd,
        fun _ => .error (.collaborator 7 none)⟩ (.str "i")
      = .error (.collaborator 7 none)
    ∧ delete ⟨fun _ => .ok [⟨.str "d0", .obj [], .obj []⟩], fun dd => .ok dd,
        fun _ => .error (.collaborator 7 none)⟩ (.str "i")
      ≠ .error statusReadTypeError :=
  ⟨rfl, fun h => nomatch h⟩

/-- C10 (amended): an error raised during the awaited lookup step of `delete`
that carries no `response` object (a plain network or thrown error) is not
re-raised: the catch handler reads `e.response.status` unconditionally, so
the operation instead fails with the `TypeError` from that property access;
an error raised by the un-awaited collaborator deletion call, however,
bypasses the catch (the `try` block has already returned) and is re-raised
unchanged even without a `response` object. -/
theorem C10_delete_response_less_error
    (f : JsValue → Except StoreError (List EdvDoc))
    (ins : EdvDoc → Except StoreError EdvDoc)
    (d : EdvDoc → Except StoreError Bool)
    (id : JsValue) (e : StoreError)
    (h : errResponse e = none) :
    (f (idQuery id) = .error e →
      delete ⟨f, ins, d⟩ id = .error statusReadTypeError)
    ∧ (∀ doc rest, f (idQuery id) = .ok (doc :: rest) → d doc = .error e →
        delete ⟨f, ins, d⟩ id = .error e)
    ∧ (∀ tag r, e = .collaborator tag r →
        (Except.error statusReadTypeError : Except StoreError Bool) ≠ .error e) := by
  refine ⟨?_, ?_, ?_⟩
  · intro hf
    simp [delete, deleteCatch, hf, h]
  · intro doc rest hf hd
    simp [delete, hf, hd]
  · intro tag r he hcontra
    subst he
    simp [statusReadTypeError] at hcontra

/-- C10 witness: a response-less lookup failure is replaced by the
status-read `TypeError` (and differs from the original error), while the
same failure at the un-awaited deletion step propagates unchanged. -/
theorem C10_delete_response_less_error_witness :
    errResponse (.collaborator 7 none) = none
    ∧ delete ⟨fun _ => .error (.collaborator 7 none), fun dd => .ok dd, fun _ => .ok true⟩
        (.str "c1") = .error statusReadTypeError
    ∧ delete ⟨fun _ => .ok [⟨.str "d0", .obj [], .obj []⟩], fun dd => .ok dd,
        fun _ => .error (.collaborator 7 none)⟩ (.str "c1")
      = .error (.collaborator 7 none)
    ∧ (Except.error statusReadTypeError : Except StoreError Bool)
        ≠ .error (.collaborator 7 none) := by
  have h : errResponse (.collaborator 7 none) = none := rfl
  have H1 := C10_delete_response_less_error (fun _ => .error (.collaborator 7 none))
    (fun dd => .ok dd) (fun _ => .ok true) (.str "c1") (.collaborator 7 none) h
  have H2 := C10_delete_response_less_error
    (fun _ => .ok [⟨.str "d0", .obj [], .obj []⟩]) (fun dd => .ok dd)
    (fun _ => .error (.collaborator 7 none)) (.str "c1") (.collaborator 7 none) h
  exact ⟨h, H1.1 rfl, H2.2.1 ⟨.str "d0", .obj [], .obj []⟩ [] rfl rfl,
    H1.2.2 7 none rfl⟩

end VerifiableCredentialStore

namespace VerifiableCredentialStore

/-- C4 counterexample: a 404-status rejection of the collaborator deletion
call is re-raised unchanged rather than translated to `false` -- line 154
returns the `edvClient.delete` promise without `await`, so its rejection
bypasses the catch -- refuting the claimed 404-to-false translation for the
deletion step. -/
theorem C4_deletion_step_404_cex :
    delete ⟨fun _ => .ok [⟨.str "d0", .obj [], .obj []⟩], fun dd => .ok dd,
        fun _ => .error (.collaborator 6 (some (some 404)))⟩ (.str "i")
      = .error (.collaborator 6 (some (some 404)))
    ∧ delete ⟨fun _ => .ok [⟨.str "d0", .obj [], .obj []⟩], fun dd => .ok dd,
        fun _ => .error (.collaborator 6 (some (some 404)))⟩ (.str "i")
      ≠ .ok false :=
  ⟨rfl, fun h => nomatch h⟩

/-- C4 (amended): `delete` looks up by `content.id` and returns `false` (not
an error) when no document matches -- and since it then never invokes the
collaborator deletion, a second call in the unchanged state also returns
`false`; when a document matches it returns the collaborator boolean; a
transport error of the awaited lookup step whose `response.status` is 404 is
translated to the return value `false`, and any other response-carrying
lookup error is re-raised unchanged; but a rejection of the un-awaited
collaborator deletion call bypasses the catch and propagates unchanged
whatever its status. -/
theorem C4_delete
    (f : JsValue → Except StoreError (List EdvDoc))
    (ins : EdvDoc → Except StoreError EdvDoc)
    (d d2 : EdvDoc → Except StoreError Bool)
    (id : JsValue) :
    (f (idQuery id) = .ok [] →
      delete ⟨f, ins, d⟩ id = .ok false ∧ delete ⟨f, ins, d2⟩ id = .ok false)
    ∧ (∀ doc rest b, f (idQuery id) = .ok (doc :: rest) → d doc = .ok b →
        delete ⟨f, ins, d⟩ id = .ok b)
    ∧ (∀ e, f (idQuery id) = .error e → errResponse e = some (some 404) →
        delete ⟨f, ins, d⟩ id = .ok false)
    ∧ (∀ e r, f (idQuery id) = .error e → errResponse e = some r → r ≠ some 404 →
        delete ⟨f, ins, d⟩ id = .error e)
    ∧ (∀ doc rest e, f (idQuery id) = .ok (doc :: rest) → d doc = .error e →
        delete ⟨f, ins, d⟩ id = .error e) := by
  refine ⟨?_, ?_, ?_, ?_, ?_⟩
  · intro hf
    exact ⟨by simp [delete, hf], by simp [delete, hf]⟩
  · intro doc rest b hf hd
    simp [delete, hf, hd]
  · intro e hf hr
    simp [delete, deleteCatch, hf, hr]
  · intro e r hf hr hne
    have hb : (r == some 404) = false := beq_eq_false_iff_ne.mpr hne
    simp [delete, deleteCatch, hf, hr, hb]
  · intro doc rest e hf hd
    simp [delete, hf, hd]

/-- C4 witness: concrete instances of every conjunct -- empty lookup (twice,
with different deletion behaviors), successful deletion, lookup-step 404
translation, lookup-step 500 re-raise, and deletion-step propagation. -/
theorem C4_delete_witness :
    (delete ⟨fun _ => .ok [], fun dd => .ok dd, fun _ => .ok true⟩ (.str "i") = .ok false
      ∧ delete ⟨fun _ => .ok [], fun dd => .ok dd, fun _ => .ok false⟩ (.str "i") = .ok false)
    ∧ delete ⟨fun _ => .ok [⟨.str "d0", .obj [], .obj []⟩], fun dd => .ok dd,
        fun _ => .ok true⟩ (.str "i") = .ok true
    ∧ delete ⟨fun _ => .error (.collaborator 5 (some (some 404))), fun dd => .ok dd,
        fun _ => .ok true⟩ (.str "i") = .ok false
    ∧ delete ⟨fun _ => .error (.collaborator 5 (some (some 500))), fun dd => .ok dd,
        fun _ => .ok true⟩ (.str "i") = .error (.collaborator 5 (some (some 500)))
    ∧ delete ⟨fun _ => .ok [⟨.str "d0", .obj [], .obj []⟩], fun dd => .ok dd,
        fun _ => .error (.collaborator 9 none)⟩ (.str "i")
      = .error (.collaborator 9 none) := by
  refine ⟨⟨((C4_delete (fun _ => .ok []) (fun dd => .ok dd) (fun _ => .ok true)
      (fun _ => .ok false) (.str "i")).1 rfl).1,
    ((C4_delete (fun _ => .ok []) (fun dd => .ok dd) (fun _ => .ok true)
      (fun _ => .ok false) (.str "i")).1 rfl).2⟩,
    (C4_delete (fun _ => .ok [⟨.str "d0", .obj [], .obj []⟩]) (fun dd => .ok dd)
      (fun _ => .ok true) (fun _ => .ok true) (.str "i")).2.1
      ⟨.str "d0", .obj [], .obj []⟩ [] true rfl rfl,
    (C4_delete (fun _ => .error (.collaborator 5 (some (some 404)))) (fun dd => .ok dd)
      (fun _ => .ok true) (fun _ => .ok true) (.str "i")).2.2.1
      (.collaborator 5 (some (some 404))) rfl rfl,
    (C4_delete (fun _ => .error (.collaborator 5 (some (some 500)))) (fun dd => .ok dd)
      (fun _ => .ok true) (fun _ => .ok true) (.str "i")).2.2.2.1
      (.collaborator 5 (some (some 500))) (some 500) rfl rfl (by decide),
    (C4_delete (fun _ => .ok [⟨.str "d0", .obj [], .obj []⟩]) (fun dd => .ok dd)
      (fun _ => .error (.collaborator 9 none)) (fun _ => .ok true) (.str "i")).2.2.2.2
      ⟨.str "d0", .obj [], .obj []⟩ [] (.collaborator 9 none) rfl rfl⟩

/-- C8: the intended behavior of `get` (see the note on its definition: the
source body as written redeclares the parameter `id` and does not parse):
look up by `content.id`, fail with the `NotFoundError` when zero documents
match, and otherwise return the single `{content, meta, documentId}` record
built from the matching vault document. -/
theorem C8_get (c : EdvClient) (id : JsValue) :
    (c.find (idQuery id) = .ok [] →
      get c id = .error (.js ⟨"NotFoundError", "Verifiable Credential not found."⟩)
      ∧ IsNotFoundError (.js ⟨"NotFoundError", "Verifiable Credential not found."⟩))
    ∧ (∀ doc rest, c.find (idQuery id) = .ok (doc :: rest) →
        get c id = .ok ⟨doc.content, doc.meta, doc.id⟩) := by
  constructor
  · intro h
    exact ⟨by simp [get, h], ⟨_, rfl, rfl⟩⟩
  · intro doc rest h
    simp [get, h]

/-- C8 witness: a missing credential raises the not-found error; a stored one
is returned as a record with the vault document id. -/
theorem C8_get_witness :
    get edvEmpty (.str "urn:1")
      = .error (.js ⟨"NotFoundError", "Verifiable Credential not found."⟩)
    ∧ get ⟨fun _ => .ok [⟨.str "d1", .obj [], .obj [("id", .str "urn:1")]⟩],
        fun dd => .ok dd, fun _ => .ok true⟩ (.str "urn:1")
      = .ok ⟨.obj [("id", .str "urn:1")], .obj [], .str "d1"⟩ := by
  refine ⟨((C8_get edvEmpty (.str "urn:1")).1 rfl).1, ?_⟩
  exact (C8_get ⟨fun _ => .ok [⟨.str "d1", .obj [], .obj [("id", .str "urn:1")]⟩],
    fun dd => .ok dd, fun _ => .ok true⟩ (.str "urn:1")).2
    ⟨.str "d1", .obj [], .obj [("id", .str "urn:1")]⟩ [] rfl

/-- C9: for a valid credential and an object `meta`, `insert` submits to the
collaborator exactly the document whose `meta.issuer` has been overwritten
with the issuer id derived by `_getIssuer` (first conjunct: the submitted
meta carries the derived issuer), and maps the collaborator result to a
record containing only the stored content and the document id -- no `meta`
is echoed back (the result type has no such field). -/
theorem C9_insert (c : EdvClient) (credential : JsValue)
    (ms : List (String × JsValue)) (docId iss : JsValue)
    (h : _getIssuer credential = .ok iss) :
    lookupField (setAssoc ms "issuer" iss) "issuer" = iss
    ∧ insert c credential (.obj ms) docId
        = (c.insert (submittedDoc credential ms iss docId)).map
            (fun doc => { content := doc.content, documentId := doc.id }) := by
  refine ⟨lookupField_setAssoc ms "issuer" iss, ?_⟩
  have hsub : insert c credential (.obj ms) docId
      = match c.insert (submittedDoc credential ms iss docId) with
        | .error e => .error e
        | .ok doc => .ok { content := doc.content, documentId := doc.id } := by
    simp only [insert, h, jsSetProp, submittedDoc]
  rw [hsub]
  cases c.insert (submittedDoc credential ms iss docId) <;> rfl

/-- C9 witness: inserting a concrete credential with a string issuer sets
`meta.issuer` on the submitted document and returns content plus document id
only. -/
theorem C9_insert_witness :
    _getIssuer (.obj [("issuer", .str "did:ex:9"), ("id", .str "urn:9")])
      = .ok (.str "did:ex:9")
    ∧ lookupField (setAssoc [("displayable", JsValue.bool true)] "issuer"
        (.str "did:ex:9")) "issuer" = .str "did:ex:9"
    ∧ insert edvEmpty (.obj [("issuer", .str "did:ex:9"), ("id", .str "urn:9")])
        (.obj [("displayable", .bool true)]) .undefined
      = .ok { content := .obj [("issuer", .str "did:ex:9"), ("id", .str "urn:9")],
              documentId := .undefined } := by
  have h : _getIssuer (.obj [("issuer", .str "did:ex:9"), ("id", .str "urn:9")])
      = .ok (.str "did:ex:9") := rfl
  have H := C9_insert edvEmpty (.obj [("issuer", .str "did:ex:9"), ("id", .str "urn:9")])
    [("displayable", JsValue.bool true)] .undefined (.str "did:ex:9") h
  exact ⟨h, H.1, by rw [H.2]; rfl⟩

end VerifiableCredentialStore

namespace VerifiableCredentialStore

/-- C1: for every QueryByExample clause, the expander emits the cross-product
of type and trusted-issuer values -- for each type value a single `{type}`
criterion when the normalized trusted-issuer list is empty, otherwise one
`{type, issuer}` criterion per issuer; in particular the
`type ["A","B"] x trustedIssuer [{id:x},{id:y}]` clause produces through
`match` exactly the four equality criteria AxX, AxY, BxX, BxY, and a single
scalar type with no trustedIssuer produces exactly one criterion with no
issuer constraint. -/
theorem C1_query_by_example_cross_product :
    (∀ (ts is : List String), (∀ s ∈ is, s ≠ "") →
      _queryCriteria (.obj [("example", .obj [("type", .arr (ts.map JsValue.str))]),
          ("trustedIssuer", .arr (is.map (fun i => JsValue.obj [("id", JsValue.str i)])))])
        = .ok (if is = [] then ts.map (fun t => JsValue.obj [("type", JsValue.str t)])
            else (ts.map (fun t => is.map (fun i =>
              JsValue.obj [("type", JsValue.str t), ("issuer", JsValue.str i)]))).flatten))
    ∧ (∀ t : String,
        _queryCriteria (.obj [("example", .obj [("type", JsValue.str t)])])
          = .ok [JsValue.obj [("type", JsValue.str t)]])
    ∧ «match» edvEmpty (.obj [("type", .str "QueryByExample"),
        ("credentialQuery", .obj [
          ("example", .obj [("type", .arr [.str "A", .str "B"])]),
          ("trustedIssuer", .arr [.obj [("id", .str "x")], .obj [("id", .str "y")]])])])
        (fun r => r)
      = ([.arr [
          .obj [("content.type", .str "A"), ("meta.issuer", .str "x")],
          .obj [("content.type", .str "A"), ("meta.issuer", .str "y")],
          .obj [("content.type", .str "B"), ("meta.issuer", .str "x")],
          .obj [("content.type", .str "B"), ("meta.issuer", .str "y")]]],
         .ok [])
    ∧ «match» edvEmpty (.obj [("type", .str "QueryByExample"),
        ("credentialQuery", .obj [("example", .obj [("type", .str "A")])])])
        (fun r => r)
      = ([.arr [.obj [("content.type", .str "A")]]], .ok []) := by
  refine ⟨?_, fun t => rfl, rfl, rfl⟩
  intro ts is h
  have step : _queryCriteria (.obj [("example", .obj [("type", .arr (ts.map JsValue.str))]),
      ("trustedIssuer", .arr (is.map (fun i => JsValue.obj [("id", JsValue.str i)])))])
      = Except.bind (mapIssuers (is.map (fun i => JsValue.obj [("id", JsValue.str i)])))
          (fun issuers => .ok (queryCriteria (ts.map JsValue.str) issuers)) := rfl
  rw [step, mapIssuers_map_id is h]
  show Except.ok (queryCriteria (ts.map JsValue.str) (is.map JsValue.str)) = _
  cases is with
  | nil =>
    rw [if_pos rfl]
    show Except.ok ((( ts.map JsValue.str).map (fun t => [JsValue.obj [("type", t)]])).flatten) = _
    rw [flatten_map_singleton, List.map_map]
    rfl
  | cons i rest =>
    rw [if_neg (List.cons_ne_nil i rest)]
    simp only [queryCriteria, List.map, List.isEmpty_cons, Bool.false_eq_true, if_false,
      List.map_map]
    rfl

/-- C1 witness: the four-criteria instance, with the nonempty-issuer
hypothesis discharged at `x`, `y`. -/
theorem C1_query_by_example_cross_product_witness :
    (∀ s ∈ (["x", "y"] : List String), s ≠ "")
    ∧ _queryCriteria (.obj [("example", .obj [("type", .arr [.str "A", .str "B"])]),
        ("trustedIssuer", .arr [.obj [("id", .str "x")], .obj [("id", .str "y")]])])
      = .ok [JsValue.obj [("type", .str "A"), ("issuer", .str "x")],
          JsValue.obj [("type", .str "A"), ("issuer", .str "y")],
          JsValue.obj [("type", .str "B"), ("issuer", .str "x")],
          JsValue.obj [("type", .str "B"), ("issuer", .str "y")]] := by
  have h : ∀ s ∈ (["x", "y"] : List String), s ≠ "" := by decide
  refine ⟨h, ?_⟩
  simpa using C1_query_by_example_cross_product.1 ["A", "B"] ["x", "y"] h

/-- C6 counterexample: a QueryByExample clause whose example has no `type`
field does not make the expander fail -- the query runs to completion (one
unconstrained equality clause is dispatched), refuting the claimed
`ConfigurationError`. -/
theorem C6_missing_type_cex :
    «match» edvEmpty (.obj [("type", .str "QueryByExample"),
        ("credentialQuery", .obj [("example", .obj [])])]) (fun r => r)
      = ([.arr [.obj []]], .ok [])
    ∧ («match» edvEmpty (.obj [("type", .str "QueryByExample"),
        ("credentialQuery", .obj [("example", .obj [])])]) (fun r => r)).2.isOk = true :=
  ⟨rfl, rfl⟩

/-- C6 (amended): a QueryByExample clause whose example has no `type` field
does not fail; the undefined type is wrapped as the single type value,
dropped by the falsy-field filter when `find` builds the equality clause, and
(with no trusted issuers) the clause contributes one unconstrained equality
clause whose collaborator result is returned. -/
theorem C6_missing_type (c : EdvClient) (exfs : List (String × JsValue))
    (docs : List EdvDoc)
    (h1 : lookupField exfs "type" = .undefined)
    (h2 : c.find (.arr [.obj []]) = .ok docs) :
    «match» c (.obj [("type", .str "QueryByExample"),
        ("credentialQuery", .obj [("example", .obj exfs)])]) (fun r => r)
      = ([.arr [.obj []]], .ok (docs.map toRecord)) := by
  have key : _queryCriteria (.obj [("example", .obj exfs)])
      = .ok [JsValue.obj [("type", JsValue.undefined)]] := by
    have base : _queryCriteria (.obj [("example", .obj exfs)])
        = .ok (queryCriteria (toArray (lookupField exfs "type")) []) := rfl
    rw [base, h1]
    rfl
  have hq : _query c (.obj [("example", .obj exfs)])
      = ([.arr [.obj []]], .ok (docs.map toRecord)) := by
    simp [_query, key, find, jsTruthy, toArray, findEntries, findEntry, jsMember,
      lookupField, h2, bind, Except.bind, pure, Except.pure]
  simp [«match», jsMember, lookupField, List.find?, strictEqStr, _queryByExample,
    jsTruthy, jsTypeof, toArray, hq, allResults, Except.map]

/-- C6 witness: a clause with `example` lacking `type` runs against a
one-document collaborator and returns its record. -/
theorem C6_missing_type_witness :
    lookupField [("foo", JsValue.str "bar")] "type" = JsValue.undefined
    ∧ «match» ⟨fun _ => .ok [⟨.str "d2", .obj [], .obj []⟩], fun dd => .ok dd,
        fun _ => .ok true⟩
      (.obj [("type", .str "QueryByExample"),
        ("credentialQuery", .obj [("example", .obj [("foo", .str "bar")])])]) (fun r => r)
      = ([.arr [.obj []]], .ok [⟨.obj [], .obj [], .str "d2"⟩]) := by
  refine ⟨rfl, ?_⟩
  simpa using C6_missing_type
    ⟨fun _ => .ok [⟨.str "d2", .obj [], .obj []⟩], fun dd => .ok dd, fun _ => .ok true⟩
    [("foo", JsValue.str "bar")] [⟨.str "d2", .obj [], .obj []⟩] rfl rfl

/-- C7 counterexample: with the offending trusted-issuer entry in the second
clause of a two-clause credentialQuery, `match` does reject with the
`NotSupportedError`, but the first clause collaborator call has already been
dispatched -- the request log is not empty, refuting "raised before any
collaborator call is attempted for every position of the offending
clause". -/
theorem C7_position_cex :
    «match» edvEmpty (.obj [("type", .str "QueryByExample"),
        ("credentialQuery", .arr [
          .obj [("example", .obj [("type", .str "A")])],
          .obj [("example", .obj [("type", .str "B")]),
            ("trustedIssuer", .obj [("name", .str "x")])]])]) (fun r => r)
      = ([.arr [.obj [("content.type", .str "A")]]],
         .error (.js ⟨"NotSupportedError", "trustedIssuer without an \"id\" is unsupported."⟩))
    ∧ ([.arr [.obj [("content.type", .str "A")]]] : List JsValue) ≠ [] :=
  ⟨rfl, by simp⟩

/-- C7 (amended): a trusted-issuer entry whose `id` is absent or falsy makes
the validation of its clause throw `NotSupportedError` (first conjunct);
a clause that throws during expansion dispatches no collaborator call of its
own (second and third conjuncts); but in a multi-clause credentialQuery the
other clauses are still expanded and their collaborator calls dispatched
before `match` rejects with the failing clause error (fourth conjunct) --
the fail-fast guarantee is per-clause, not query-wide. -/
theorem C7_trusted_issuer_not_supported :
    (∀ (pre : List JsValue) (o : JsValue) (rest : List JsValue),
      (∀ p ∈ pre, ∃ w, jsMember p "id" = .ok w ∧ jsTruthy w = true) →
      (∃ w, jsMember o "id" = .ok w ∧ jsTruthy w = false) →
      mapIssuers (pre ++ o :: rest)
        = .error (.js ⟨"NotSupportedError", "trustedIssuer without an \"id\" is unsupported."⟩)
      ∧ IsNotSupportedError
          (.js ⟨"NotSupportedError", "trustedIssuer without an \"id\" is unsupported."⟩))
    ∧ (∀ (c : EdvClient) (clause : JsValue) (e : StoreError),
        _queryCriteria clause = .error e → _query c clause = ([], .error e))
    ∧ (∀ (cfs exfs : List (String × JsValue)) (tis : List JsValue) (e : StoreError),
        lookupField cfs "example" = .obj exfs →
        lookupField cfs "trustedIssuer" = .arr tis →
        mapIssuers tis = .error e →
        _queryCriteria (.obj cfs) = .error e)
    ∧ (∀ (c : EdvClient) (good bad : JsValue)
        (engine : CredentialRecord → CredentialRecord)
        (gl : List JsValue) (gr : List CredentialRecord) (e : StoreError),
        _query c good = (gl, .ok gr) →
        _queryCriteria bad = .error e →
        «match» c (.obj [("type", .str "QueryByExample"),
            ("credentialQuery", .arr [good, bad])]) engine
          = (gl, .error e)) := by
  refine ⟨fun pre o rest h1 h2 => ⟨mapIssuers_falsy pre o rest h1 h2, ⟨_, rfl, rfl⟩⟩,
    ?_, ?_, ?_⟩
  · intro c clause e h
    simp [_query, h]
  · intro cfs exfs tis e h1 h2 h3
    simp [_queryCriteria, jsMember, h1, h2, h3, toArray, bind, Except.bind]
  · intro c good bad engine gl gr e hg hb
    have hbad : _query c bad = ([], .error e) := by simp [_query, hb]
    simp [«match», jsMember, lookupField, List.find?, strictEqStr, _queryByExample,
      jsTruthy, jsTypeof, toArray, hg, hbad, allResults, Except.map]

/-- C7 witness: the validation error on `{name: x}` after a valid entry, and
the two-clause run in which the error surfaces while the valid clause request
was dispatched. -/
theorem C7_trusted_issuer_not_supported_witness :
    mapIssuers [.obj [("id", .str "z")], .obj [("name", .str "x")]]
      = .error (.js ⟨"NotSupportedError", "trustedIssuer without an \"id\" is unsupported."⟩)
    ∧ «match» edvEmpty (.obj [("type", .str "QueryByExample"),
        ("credentialQuery", .arr [
          .obj [("example", .obj [("type", .str "A")])],
          .obj [("example", .obj [("type", .str "B")]),
            ("trustedIssuer", .obj [("name", .str "x")])]])]) (fun r => r)
      = ([.arr [.obj [("content.type", .str "A")]]],
         .error (.js ⟨"NotSupportedError", "trustedIssuer without an \"id\" is unsupported."⟩)) := by
  constructor
  · refine ((C7_trusted_issuer_not_supported.1 [JsValue.obj [("id", JsValue.str "z")]]
      (.obj [("name", .str "x")]) [] ?_ ?_).1)
    · intro p hp
      have hp2 : p = JsValue.obj [("id", JsValue.str "z")] := by simpa using hp
      exact ⟨.str "z", by rw [hp2]; rfl, rfl⟩
    · exact ⟨.undefined, rfl, rfl⟩
  · exact C7_trusted_issuer_not_supported.2.2.2 edvEmpty
      (.obj [("example", .obj [("type", .str "A")])])
      (.obj [("example", .obj [("type", .str "B")]),
        ("trustedIssuer", .obj [("name", .str "x")])]) (fun r => r)
      [.arr [.obj [("content.type", .str "A")]]] [] _ rfl rfl

end VerifiableCredentialStore

namespace VerifiableCredentialStore

/-- C2: `find` without a query fails with the missing-query error (the
`ConfigurationError` of the spec taxonomy) before any collaborator call; a
scalar query behaves exactly as its singleton-array form; for an array of
filter specs exactly one equality clause per spec is built and all clauses
are submitted as one combined collaborator request, every returned document
being mapped to a `{content, meta, documentId}` record with no
de-duplication (the result is literally the collaborator document list
mapped); and every field of a built clause stems from a present (indeed
truthy) field of its spec under the mapping type to content.type, issuer to
meta.issuer, displayable to meta.displayable. -/
theorem C2_find (c : EdvClient) :
    (find c .undefined
        = ([], .error (.js ⟨"TypeError", "\"query\" is a required parameter."⟩))
      ∧ IsConfigurationError (.js ⟨"TypeError", "\"query\" is a required parameter."⟩))
    ∧ (∀ q : JsValue, jsTruthy q = true → (∀ xs, q ≠ .arr xs) →
        find c q = find c (.arr [q]))
    ∧ (∀ specs equals docs, findEntries specs = .ok equals →
        c.find (.arr equals) = .ok docs →
        equals.length = specs.length
        ∧ find c (.arr specs) = ([.arr equals], .ok (docs.map toRecord)))
    ∧ (∀ spec entry, findEntry spec = .ok (.obj entry) →
        ∀ k v, (k, v) ∈ entry →
          (k = "content.type" ∧ jsMember spec "type" = .ok v ∧ jsTruthy v = true)
          ∨ (k = "meta.issuer" ∧ jsMember spec "issuer" = .ok v ∧ jsTruthy v = true)
          ∨ (k = "meta.displayable" ∧ jsMember spec "displayable" = .ok v
              ∧ jsTruthy v = true)) := by
  refine ⟨⟨by simp [find, jsTruthy], ⟨_, rfl, Or.inl ⟨rfl, rfl⟩⟩⟩, ?_, ?_, ?_⟩
  · intro q hq hnarr
    cases q with
    | undefined => simp [jsTruthy] at hq
    | null => simp [jsTruthy] at hq
    | arr xs => exact absurd rfl (hnarr xs)
    | bool b =>
      obtain rfl : b = true := by simpa [jsTruthy] using hq
      simp [find, toArray, jsTruthy]
    | num n =>
      have hn : n ≠ 0 := by simpa [jsTruthy] using hq
      simp [find, toArray, jsTruthy, hn]
    | str s =>
      have hs : s ≠ "" := by simpa [jsTruthy] using hq
      simp [find, toArray, jsTruthy, hs]
    | obj fs => simp [find, toArray, jsTruthy]
  · intro specs equals docs h1 h2
    exact ⟨findEntries_length specs equals h1,
      by simp [find, jsTruthy, toArray, h1, h2]⟩
  · intro spec entry h k v hmem
    cases ht : jsMember spec "type" with
    | error e => simp [findEntry, ht, bind, Except.bind] at h
    | ok tv =>
      cases hi : jsMember spec "issuer" with
      | error e => simp [findEntry, ht, hi, bind, Except.bind] at h
      | ok iv =>
        cases hd : jsMember spec "displayable" with
        | error e => simp [findEntry, ht, hi, hd, bind, Except.bind] at h
        | ok dv =>
          simp only [findEntry, ht, hi, hd, bind, Except.bind, pure, Except.pure,
            Except.ok.injEq, JsValue.obj.injEq] at h
          subst h
          by_cases h1 : jsTruthy tv = true <;> by_cases h2 : jsTruthy iv = true <;>
              by_cases h3 : jsTruthy dv = true <;>
            simp [h1, h2, h3] at hmem <;>
            first
            | (rcases hmem with ⟨rfl, hv⟩ | ⟨rfl, hv⟩ | ⟨rfl, hv⟩ <;>
                simp [ht, hi, hd, h1, h2, h3, hv])
            | (rcases hmem with ⟨rfl, hv⟩ | ⟨rfl, hv⟩ <;>
                simp [ht, hi, hd, h1, h2, h3, hv])
            | (rcases hmem with ⟨rfl, hv⟩ <;> simp [ht, hi, hd, h1, h2, h3, hv])

/-- C2 witness: the missing-query error, scalar-array agreement, a concrete
two-field spec submitted as one request with duplicate documents preserved,
and the clause-field provenance disjunct for `meta.displayable`. -/
theorem C2_find_witness :
    find edvEmpty .undefined
        = ([], .error (.js ⟨"TypeError", "\"query\" is a required parameter."⟩))
    ∧ find edvEmpty (.obj [("type", .str "T")])
        = find edvEmpty (.arr [.obj [("type", .str "T")]])
    ∧ find ⟨fun _ => .ok [⟨.str "d3", .obj [], .obj []⟩, ⟨.str "d3", .obj [], .obj []⟩],
          fun dd => .ok dd, fun _ => .ok true⟩
        (.arr [.obj [("type", .str "T"), ("displayable", .bool true)]])
      = ([.arr [.obj [("content.type", .str "T"), ("meta.displayable", .bool true)]]],
         .ok [⟨.obj [], .obj [], .str "d3"⟩, ⟨.obj [], .obj [], .str "d3"⟩])
    ∧ (("meta.displayable" = "content.type"
          ∧ jsMember (.obj [("type", .str "T"), ("displayable", .bool true)]) "type"
              = .ok (.bool true)
          ∧ jsTruthy (.bool true) = true)
        ∨ ("meta.displayable" = "meta.issuer"
          ∧ jsMember (.obj [("type", .str "T"), ("displayable", .bool true)]) "issuer"
              = .ok (.bool true)
          ∧ jsTruthy (.bool true) = true)
        ∨ ("meta.displayable" = "meta.displayable"
          ∧ jsMember (.obj [("type", .str "T"), ("displayable", .bool true)]) "displayable"
              = .ok (.bool true)
          ∧ jsTruthy (.bool true) = true)) := by
  refine ⟨(C2_find edvEmpty).1.1, ?_, ?_, ?_⟩
  · exact (C2_find edvEmpty).2.1 (.obj [("type", .str "T")]) rfl (fun xs hh => nomatch hh)
  · have H := (C2_find ⟨fun _ => .ok [⟨.str "d3", .obj [], .obj []⟩,
        ⟨.str "d3", .obj [], .obj []⟩], fun dd => .ok dd, fun _ => .ok true⟩).2.2.1
      [.obj [("type", .str "T"), ("displayable", .bool true)]]
      [.obj [("content.type", .str "T"), ("meta.displayable", .bool true)]]
      [⟨.str "d3", .obj [], .obj []⟩, ⟨.str "d3", .obj [], .obj []⟩] rfl rfl
    simpa [toRecord] using H.2
  · exact (C2_find edvEmpty).2.2.2
      (.obj [("type", .str "T"), ("displayable", .bool true)])
      [("content.type", .str "T"), ("meta.displayable", .bool true)] rfl
      "meta.displayable" (.bool true)
      (List.mem_cons_of_mem _ (List.mem_cons_self _ _))

end VerifiableCredentialStore
